import Mathlib

/-!
Shallow embedding of the sales-agent lead tracker (tool-invocation server with
in-memory storage, and the sqlite-backed variant in `src/db.ts`), together with
proofs about its query, aggregation, templating and error-envelope behaviour.

Conventions of the embedding:
* timestamps are natural numbers (the source stores ISO-8601 strings and
  compares them either lexicographically or after `Date` parsing; both orders
  are isomorphic to the numeric order of the underlying instant);
* monetary values (`estimatedValue`) are rationals;
* the JavaScript `Map` collections are lists in insertion order;
* handlers that return the `{success:false, error}` envelope are embedded as
  `Except String`-valued functions (`.error e` is the failure envelope).
-/

namespace SalesAgent

/-- Status enum of a lead: the seven pipeline stages. -/
inductive Status where
  | new
  | contacted
  | qualified
  | proposal
  | negotiation
  | closed_won
  | closed_lost
deriving DecidableEq, Repr

/-- Priority enum of a lead. -/
inductive Priority where
  | low
  | medium
  | high
deriving DecidableEq, Repr

/-- Lead record, following the `Lead` interface of the server. -/
structure Lead where
  id : String
  name : String
  email : String
  phone : Option String
  company : String
  title : Option String
  status : Status
  source : String
  notes : List String
  createdAt : Nat
  updatedAt : Nat
  lastContactedAt : Option Nat
  estimatedValue : Option ℚ
  priority : Priority
  tags : List String
deriving DecidableEq, Repr

/-- Template category enum. -/
inductive Category where
  | introduction
  | follow_up
  | proposal
  | reminder
  | custom
deriving DecidableEq, Repr

/-- EmailTemplate record. -/
structure EmailTemplate where
  id : String
  name : String
  subject : String
  body : String
  category : Category
  «variables» : List String
deriving DecidableEq, Repr

/-- Meeting status enum. -/
inductive MeetingStatus where
  | scheduled
  | completed
  | cancelled
  | no_show
deriving DecidableEq, Repr

/-- Meeting record. -/
structure Meeting where
  id : String
  leadId : String
  title : String
  description : Option String
  scheduledAt : Nat
  duration : Nat
  location : Option String
  meetingLink : Option String
  status : MeetingStatus
  outcome : Option String
deriving DecidableEq, Repr

/-- FollowUp type enum. -/
inductive FollowUpType where
  | email
  | call
  | meeting
  | task
deriving DecidableEq, Repr

/-- FollowUp record. -/
structure FollowUp where
  id : String
  leadId : String
  type : FollowUpType
  scheduledAt : Nat
  description : String
  completed : Bool
  completedAt : Option Nat
deriving DecidableEq, Repr

/-! ## Template interpolation

The source's `interpolateTemplate` is a single regex replace:
`template.replace(/\x7b\x7b(\w+)\x7d\x7d/g, (match, key) => variables[key] || match)`.
We embed the global regex replace as a left-to-right scan over the character
list.  The braces are named characters so that no brace appears inside a
character or string literal. -/

/-- Opening brace character (codepoint 123). -/
def lbrace : Char := Char.ofNat 123

/-- Closing brace character (codepoint 125). -/
def rbrace : Char := Char.ofNat 125

/-- Word character class of the regex `\w`: ASCII letters, digits, underscore. -/
def isWordChar (c : Char) : Bool :=
  c.isAlpha || c.isDigit || c = '_'

/-- Literal text of a placeholder for `key`: two opening braces, the key, two
closing braces. -/
def placeholderText (key : List Char) : List Char :=
  lbrace :: lbrace :: (key ++ [rbrace, rbrace])

/-- Replacement applied by the source callback `(match, key) => variables[key] || match`:
the bound value when the key is bound to a truthy (non-empty) string, and the
matched placeholder text itself otherwise. -/
def substituteVar (vars : List (String × String)) (key : List Char) : List Char :=
  match vars.lookup (String.mk key) with
  | some v => if v = "" then placeholderText key else v.data
  | none => placeholderText key

/-- Length bound for `dropWhile`, used for termination of the scanner. -/
theorem length_dropWhile_le (p : α → Bool) (l : List α) :
    (l.dropWhile p).length ≤ l.length := by
  induction l with
  | nil => simp
  | cons a l ih =>
    by_cases h : p a
    · simp [List.dropWhile_cons, h]; omega
    · simp [List.dropWhile_cons, h]

/-- Test for a placeholder match starting at the current scan position: the
current character and the next one are opening braces, then a non-empty run of
word characters (the greedy `\w+`; no backtracking is needed because a closing
brace is not a word character), then two closing braces. -/
def placeholderAt (c1 : Char) (cs1 : List Char) : Bool :=
  c1 == lbrace && cs1.head? == some lbrace &&
    !(cs1.tail.takeWhile isWordChar).isEmpty &&
    (cs1.tail.dropWhile isWordChar).take 2 == [rbrace, rbrace]

/-- Key of the placeholder match at the current position (the capture of
`(\w+)`). -/
def placeholderKey (cs1 : List Char) : List Char :=
  cs1.tail.takeWhile isWordChar

/-- Remainder of the input after the placeholder match at the current
position. -/
def placeholderRest (cs1 : List Char) : List Char :=
  (cs1.tail.dropWhile isWordChar).drop 2

/-- Length bound used for termination of the scanners. -/
theorem placeholderRest_length_lt (c1 : Char) (cs1 : List Char) :
    (placeholderRest cs1).length < (c1 :: cs1).length := by
  have hle := length_dropWhile_le isWordChar cs1.tail
  have ht : cs1.tail.length ≤ cs1.length := by
    cases cs1 <;> simp
  simp [placeholderRest]
  omega

/-- Scanner for the global regex replace of `interpolateTemplate`.  At each
position it attempts to match a placeholder; on a match it emits the
replacement and resumes after the match, otherwise it emits one character and
advances by one, exactly like the regex engine's scan loop. -/
def interpolateChars (vars : List (String × String)) (cs : List Char) : List Char :=
  match cs with
  | [] => []
  | c1 :: cs1 =>
    if placeholderAt c1 cs1 then
      substituteVar vars (placeholderKey cs1) ++ interpolateChars vars (placeholderRest cs1)
    else
      c1 :: interpolateChars vars cs1
termination_by cs.length
decreasing_by
  · exact placeholderRest_length_lt c1 cs1
  · simp

/-- Embedding of `interpolateTemplate(template, variables)`. -/
def interpolateTemplate (template : String) (vars : List (String × String)) : String :=
  String.mk (interpolateChars vars template.data)

/-- Token of a template: a literal character, or a placeholder with its key. -/
inductive TemplateTok where
  | lit (c : Char)
  | ph (key : List Char)
deriving DecidableEq, Repr

/-- Tokenizer: performs the same left-to-right scan as `interpolateChars`, but
records which spans are placeholder matches of the regex instead of replacing
them. -/
def tokenizeChars (cs : List Char) : List TemplateTok :=
  match cs with
  | [] => []
  | c1 :: cs1 =>
    if placeholderAt c1 cs1 then
      .ph (placeholderKey cs1) :: tokenizeChars (placeholderRest cs1)
    else
      .lit c1 :: tokenizeChars cs1
termination_by cs.length
decreasing_by
  · exact placeholderRest_length_lt c1 cs1
  · simp

/-- Rendering of one token following the specification's words: a literal
character stands for itself; a placeholder whose key the variable map binds
to a non-empty value becomes that value; any other placeholder is left as its
original text. -/
def renderTok (vars : List (String × String)) : TemplateTok → List Char
  | .lit c => [c]
  | .ph key =>
    match vars.lookup (String.mk key) with
    | some v => if v = "" then placeholderText key else v.data
    | none => placeholderText key

/-- Specification-side rendering of a whole template. -/
def renderTemplate (template : String) (vars : List (String × String)) : String :=
  String.mk (((tokenizeChars template.data).map (renderTok vars)).flatten)

/-- The interpolation scan agrees with tokenize-then-render. -/
theorem interpolateChars_eq_render (vars : List (String × String)) (cs : List Char) :
    interpolateChars vars cs = ((tokenizeChars cs).map (renderTok vars)).flatten := by
  induction cs using interpolateChars.induct vars with
  | case1 => simp [interpolateChars, tokenizeChars]
  | case2 c1 cs1 hc ih =>
    rw [interpolateChars, tokenizeChars]
    simp only [if_pos hc]
    simp [renderTok, substituteVar, ih]
  | case3 c1 cs1 hc ih =>
    rw [interpolateChars, tokenizeChars]
    simp only [if_neg hc]
    simp [renderTok, ih]

/-- A closing brace is not a word character. -/
theorem isWordChar_rbrace : isWordChar rbrace = false := by decide

/-- Splitting the scan of `key ++ \x7d\x7d` when every key character is a word
character. -/
theorem scan_key_split (key : List Char) (hkey : ∀ c ∈ key, isWordChar c = true) :
    (key ++ [rbrace, rbrace]).takeWhile isWordChar = key ∧
    (key ++ [rbrace, rbrace]).dropWhile isWordChar = [rbrace, rbrace] := by
  induction key with
  | nil =>
    simp [List.takeWhile_cons, List.dropWhile_cons, isWordChar_rbrace]
  | cons c key ih =>
    have hc : isWordChar c = true := hkey c (List.mem_cons_self c key)
    have ih2 := ih (fun d hd => hkey d (List.mem_cons_of_mem c hd))
    simp [List.takeWhile_cons, List.dropWhile_cons, hc, ih2.1, ih2.2]

/-- Evaluating the scanner on a single well-formed placeholder yields exactly
the source callback's replacement for its key. -/
theorem interpolateChars_placeholder (vars : List (String × String)) (key : List Char)
    (hne : key ≠ []) (hkey : ∀ c ∈ key, isWordChar c = true) :
    interpolateChars vars (placeholderText key) = substituteVar vars key := by
  obtain ⟨ht, hd⟩ := scan_key_split key hkey
  rw [placeholderText, interpolateChars]
  have hat : placeholderAt lbrace (lbrace :: (key ++ [rbrace, rbrace])) = true := by
    simp [placeholderAt, ht, hd, hne]
  rw [if_pos hat]
  have hkeyeq : placeholderKey (lbrace :: (key ++ [rbrace, rbrace])) = key := by
    simp [placeholderKey, ht]
  have hresteq : placeholderRest (lbrace :: (key ++ [rbrace, rbrace])) = [] := by
    simp [placeholderRest, hd]
  rw [hkeyeq, hresteq, interpolateChars]
  simp

/-! ## Lead listing

Embedding of `list_leads` (in-memory server) and `leadsDB.list` (sqlite
backend): optional conjunctive filters over status, priority and source, then
the default ordering by priority rank ascending with `createdAt` descending as
tie-break. -/

/-- Priority rank of the default lead ordering (`priorityOrder` in the
source). -/
def priorityOrder : Priority → Nat
  | .high => 0
  | .medium => 1
  | .low => 2

/-- Comparator of the default lead ordering as a total preorder test:
`leadLE a b` holds when the source comparator returns a non-positive value on
`(a, b)`, i.e. when `a` may come before `b`. -/
def leadLE (a b : Lead) : Bool :=
  decide (priorityOrder a.priority < priorityOrder b.priority) ||
    (decide (priorityOrder a.priority = priorityOrder b.priority) &&
      decide (b.createdAt ≤ a.createdAt))

/-- Optional conjunctive filters recognised by the lead listing. -/
structure LeadFilters where
  status : Option Status
  priority : Option Priority
  source : Option String
deriving Repr

/-- Sequential application of the optional filters, as in the source's chain of
`if (args.x) leads = leads.filter(...)`. -/
def applyLeadFilters (f : LeadFilters) (leads : List Lead) : List Lead :=
  let l1 :=
    match f.status with
    | some s => leads.filter (fun l => decide (l.status = s))
    | none => leads
  let l2 :=
    match f.priority with
    | some p => l1.filter (fun l => decide (l.priority = p))
    | none => l1
  match f.source with
  | some src => l2.filter (fun l => decide (l.source = src))
  | none => l2

/-- Embedding of the lead listing: the filtered, default-ordered lead list that
`leadsDB.list` returns and that the `list_leads` handler paginates.
`Array.prototype.sort` is stable (ECMAScript 2019), and the output of a stable
sort under a total preorder comparator is unique, so the (stable)
`List.mergeSort` is a faithful embedding of the sort. -/
def list_leads (f : LeadFilters) (leads : List Lead) : List Lead :=
  (applyLeadFilters f leads).mergeSort leadLE

/-- Empty filter set. -/
def noLeadFilters : LeadFilters := ⟨none, none, none⟩

/-- Totality of the lead comparator. -/
theorem leadLE_total (a b : Lead) : leadLE a b || leadLE b a := by
  simp only [leadLE, Bool.or_eq_true, Bool.and_eq_true, decide_eq_true_eq]
  omega

/-- Transitivity of the lead comparator. -/
theorem leadLE_trans (a b c : Lead) : leadLE a b → leadLE b c → leadLE a c := by
  simp only [leadLE, Bool.or_eq_true, Bool.and_eq_true, decide_eq_true_eq]
  omega

/-! ## Lead search -/

/-- Substring containment test, i.e. JavaScript `hay.includes(needle)`. -/
def containsSub (needle : List Char) : List Char → Bool
  | [] => needle.isEmpty
  | c :: cs => needle.isPrefixOf (c :: cs) || containsSub needle cs

/-- Character-wise lower-casing, i.e. `toLowerCase()` (`Char.toLower` lowers
the ASCII range, as the theorems' inputs do). -/
def lowerChars (cs : List Char) : List Char :=
  cs.map Char.toLower

/-- Embedding of the in-memory server's `search_leads` filter over
`storage.leads.values()` (insertion order). -/
def search_leads (q : String) (leads : List Lead) : List Lead :=
  let query := lowerChars q.data
  leads.filter (fun lead =>
    containsSub query (lowerChars lead.name.data) ||
    containsSub query (lowerChars lead.company.data) ||
    containsSub query (lowerChars lead.email.data) ||
    lead.tags.any (fun tag => containsSub query (lowerChars tag.data)))

/-- Case-insensitive substring test, written from the specification's words:
the lower-cased query occurs as a substring of the lower-cased text. -/
def ciContains (q : String) (text : String) : Bool :=
  containsSub (lowerChars q.data) (lowerChars text.data)

/-- Search predicate as the specification states it: the query matches the
name, company or email as a case-insensitive substring, or matches one of the
tags. -/
def searchSpecMatch (q : String) (lead : Lead) : Bool :=
  ciContains q lead.name || ciContains q lead.company || ciContains q lead.email ||
    lead.tags.any (fun tag => ciContains q tag)

/-! ## Pipeline aggregation and win rate

Embedding of the in-memory server's `get_pipeline` and of the sqlite backend's
`analyticsDB.getPipeline` / `analyticsDB.getStats`. -/

/-- The seven pipeline stages, in the key order of the `pipeline` record. -/
def stageStatuses : List Status :=
  [.new, .contacted, .qualified, .proposal, .negotiation, .closed_won, .closed_lost]

/-- Aggregate of one pipeline stage.  The stage's lead list is kept as the lead
names pushed by the in-memory loop (the sqlite variant stores whole rows; no
claim inspects this field). -/
structure StageAgg where
  count : Nat
  value : ℚ
  leadNames : List String
deriving DecidableEq, Repr

/-- One step of the `leads.forEach` loop of the in-memory `get_pipeline`: the
lead's stage count is bumped; `estimatedValue` is added only when truthy in
JavaScript (a missing or zero value adds nothing); the name is pushed. -/
def bumpStage (st : StageAgg) (l : Lead) : StageAgg :=
  { count := st.count + 1
    value :=
      match l.estimatedValue with
      | some v => if v = 0 then st.value else st.value + v
      | none => st.value
    leadNames := st.leadNames ++ [l.name] }

/-- Stage accumulation of the in-memory `get_pipeline` (the mutated `pipeline`
record, as a function from status to stage aggregate). -/
def pipelineMem (leads : List Lead) : Status → StageAgg :=
  leads.foldl
    (fun acc l s => if s = l.status then bumpStage (acc s) l else acc s)
    (fun _ => ⟨0, 0, []⟩)

/-- Model of `Number.prototype.toFixed(1)` on the exact rational value of the
expression (only the divide-by-zero branch of the win rate, which this function
never sees, and the guard branches are exercised by the theorems below). -/
def toFixed1 (q : ℚ) : String :=
  let n : Int := ⌊q * 10 + 1 / 2⌋
  toString (n / 10) ++ "." ++ toString (n % 10).natAbs

/-- Win-rate string of the in-memory `get_pipeline`:
`leads.length > 0 ? (wonDeals / (wonDeals + lost) * 100).toFixed(1) : "0"`.
When the guard passes but `wonDeals + lost = 0`, the JavaScript expression is
`0 / 0`, which is `NaN`, and `toFixed` renders `NaN` as the string `"NaN"`. -/
def winRateMem (leads : List Lead) : String :=
  let won := (pipelineMem leads Status.closed_won).count
  let lost := (pipelineMem leads Status.closed_lost).count
  if leads.length > 0 then
    if won + lost = 0 then "NaN" else toFixed1 ((won : ℚ) / ((won : ℚ) + lost) * 100)
  else "0"

/-- Summary block of a `get_pipeline` response. -/
structure PipelineSummary where
  totalLeads : Nat
  activeLeads : Nat
  totalPipelineValue : ℚ
  winRate : String
deriving DecidableEq, Repr

/-- Summary of the in-memory `get_pipeline`: total lead count, count of leads
not in a closed stage, the reduce-sum of the stage values in key order, and the
win-rate string suffixed with a percent sign. -/
def get_pipeline_summary_mem (leads : List Lead) : PipelineSummary :=
  { totalLeads := leads.length
    activeLeads :=
      (leads.filter (fun l =>
        !(decide (l.status = Status.closed_won) || decide (l.status = Status.closed_lost)))).length
    totalPipelineValue := (stageStatuses.map (fun s => (pipelineMem leads s).value)).sum
    winRate := winRateMem leads ++ "%" }

/-- SQL `COALESCE(SUM(estimated_value), 0)` over a list of leads: rows with a
missing value contribute nothing (the sqlite `create` stores a falsy
`estimatedValue` as NULL, which SUM ignores). -/
def sumEstimated (leads : List Lead) : ℚ :=
  (leads.map (fun l => l.estimatedValue.getD 0)).sum

/-- Stage aggregate computed by the sqlite `analyticsDB.getPipeline` GROUP BY
query for one status. -/
def pipelineSql (leads : List Lead) (s : Status) : StageAgg :=
  let matching := leads.filter (fun l => decide (l.status = s))
  ⟨matching.length, sumEstimated matching, matching.map (fun l => l.name)⟩

/-- Stats block of the sqlite `analyticsDB.getStats` that the sqlite
`get_pipeline` handler exposes as its summary.  Its win-rate guard is
`wonDeals + lostDeals > 0`. -/
def get_stats_sql (leads : List Lead) : PipelineSummary :=
  let won := (leads.filter (fun l => decide (l.status = Status.closed_won))).length
  let lost := (leads.filter (fun l => decide (l.status = Status.closed_lost))).length
  { totalLeads := leads.length
    activeLeads :=
      (leads.filter (fun l =>
        !(decide (l.status = Status.closed_won) || decide (l.status = Status.closed_lost)))).length
    totalPipelineValue := sumEstimated leads
    winRate :=
      (if won + lost > 0 then toFixed1 ((won : ℚ) / ((won : ℚ) + lost) * 100) else "0") ++ "%" }

/-! ## Lead update and the not-found envelopes

Embedding of the `update_lead` handler of the in-memory server (object spread
over the stored lead, with `id`, `createdAt`, `updatedAt` and `notes` then set
explicitly), and of the id-taking handlers relevant to the error-envelope
claims. -/

/-- Partial update accepted by `update_lead` (the `updates` argument schema). -/
structure LeadUpdates where
  status : Option Status
  priority : Option Priority
  estimatedValue : Option ℚ
  phone : Option String
  title : Option String
  notes : Option String
  tags : Option (List String)
deriving Repr

/-- Update with no field present. -/
def noLeadUpdates : LeadUpdates := ⟨none, none, none, none, none, none, none⟩

/-- Applying a partial update to a lead as the in-memory `update_lead` does:
fields present in the partial override the stored ones (object spread), then
`id` and `createdAt` are restored from the stored lead, `updatedAt` is set to
now, and a truthy `notes` string is appended to the stored notes. -/
def applyLeadUpdates (lead : Lead) (u : LeadUpdates) (now : Nat) : Lead :=
  { id := lead.id
    name := lead.name
    email := lead.email
    phone := match u.phone with | some p => some p | none => lead.phone
    company := lead.company
    title := match u.title with | some t => some t | none => lead.title
    status := u.status.getD lead.status
    source := lead.source
    notes := match u.notes with
      | some n => if n = "" then lead.notes else lead.notes ++ [n]
      | none => lead.notes
    createdAt := lead.createdAt
    updatedAt := now
    lastContactedAt := lead.lastContactedAt
    estimatedValue := match u.estimatedValue with | some v => some v | none => lead.estimatedValue
    priority := u.priority.getD lead.priority
    tags := u.tags.getD lead.tags }

/-- Handler `update_lead`: not-found envelope when the id does not resolve,
otherwise the store with the updated lead written back. -/
def update_lead (leads : List Lead) (id : String) (u : LeadUpdates) (now : Nat) :
    Except String (List Lead) :=
  match leads.find? (fun l => l.id == id) with
  | none => .error "Lead not found"
  | some lead => .ok (leads.map (fun l => if l.id == id then applyLeadUpdates lead u now else l))

/-- Handler `get_lead`. -/
def get_lead (leads : List Lead) (id : String) : Except String Lead :=
  match leads.find? (fun l => l.id == id) with
  | none => .error "Lead not found"
  | some lead => .ok lead

/-- Handler `delete_lead` (sqlite server): existence check, then hard delete. -/
def delete_lead (leads : List Lead) (id : String) : Except String (List Lead) :=
  match leads.find? (fun l => l.id == id) with
  | none => .error "Lead not found"
  | some _ => .ok (leads.filter (fun l => !(l.id == id)))

/-- Partial update accepted by `update_email_template`. -/
structure TemplateUpdates where
  name : Option String
  subject : Option String
  body : Option String
  category : Option Category
  «variables» : Option (List String)
deriving Repr

/-- Applying a template update as `templatesDB.update` does: each field is
written only when present and truthy (an empty string is skipped by the
`if (updates.x)` guards; an array, even empty, is truthy). -/
def applyTemplateUpdates (t : EmailTemplate) (u : TemplateUpdates) : EmailTemplate :=
  { id := t.id
    name := match u.name with | some n => if n = "" then t.name else n | none => t.name
    subject := match u.subject with | some s => if s = "" then t.subject else s | none => t.subject
    body := match u.body with | some b => if b = "" then t.body else b | none => t.body
    category := u.category.getD t.category
    «variables» := u.«variables».getD t.«variables» }

/-- Update with no field present. -/
def noTemplateUpdates : TemplateUpdates := ⟨none, none, none, none, none⟩

/-- Handler `get_email_template`. -/
def get_email_template (ts : List EmailTemplate) (id : String) : Except String EmailTemplate :=
  match ts.find? (fun t => t.id == id) with
  | none => .error "Template not found"
  | some t => .ok t

/-- Message of the storage failure surfaced when an UPDATE statement is built
with an empty SET clause: `sets.join(', ')` is empty, the statement
`UPDATE <table> SET  WHERE id = ?` is malformed, the driver rejects it, and the
outermost request handler converts the thrown error into a failure envelope
carrying the driver's message (this constant stands for that driver text; the
theorems only rely on it differing from the not-found messages). -/
def emptySetSqlError : String := "SQLITE_ERROR: near \"WHERE\": syntax error"

/-- Test for `templatesDB.update` pushing at least one SET assignment: `name`,
`subject` and `body` are pushed when truthy (non-empty), `category` and
`variables` whenever present (an array is truthy even when empty). -/
def templateUpdatesHasSet (u : TemplateUpdates) : Bool :=
  (match u.name with | some s => !(s == "") | none => false) ||
  (match u.subject with | some s => !(s == "") | none => false) ||
  (match u.body with | some s => !(s == "") | none => false) ||
  u.category.isSome || u.«variables».isSome

/-- Handler `update_email_template`: existence check, then the update; when no
field of the partial produces a SET assignment the generated SQL is malformed
and the call surfaces the driver's failure envelope. -/
def update_email_template (ts : List EmailTemplate) (id : String) (u : TemplateUpdates) :
    Except String (List EmailTemplate) :=
  match ts.find? (fun t => t.id == id) with
  | none => .error "Template not found"
  | some _ =>
    if templateUpdatesHasSet u then
      .ok (ts.map (fun t => if t.id == id then applyTemplateUpdates t u else t))
    else
      .error emptySetSqlError

/-- Handler `delete_email_template`: existence check, then hard delete. -/
def delete_email_template (ts : List EmailTemplate) (id : String) :
    Except String (List EmailTemplate) :=
  match ts.find? (fun t => t.id == id) with
  | none => .error "Template not found"
  | some _ => .ok (ts.filter (fun t => !(t.id == id)))

/-- Handler `complete_follow_up` of the in-memory server: existence check, then
the completion flags are set on the stored record. -/
def complete_follow_up_mem (fs : List FollowUp) (id : String) (now : Nat) :
    Except String (List FollowUp) :=
  match fs.find? (fun f => f.id == id) with
  | none => .error "Follow-up not found"
  | some _ =>
    .ok (fs.map (fun f =>
      if f.id == id then { f with completed := true, completedAt := some now } else f))

/-- Partial update accepted by `update_meeting`. -/
structure MeetingUpdates where
  title : Option String
  description : Option String
  scheduledAt : Option Nat
  duration : Option Nat
  location : Option String
  meetingLink : Option String
  status : Option MeetingStatus
  outcome : Option String
deriving Repr

/-- Update with no field present. -/
def noMeetingUpdates : MeetingUpdates := ⟨none, none, none, none, none, none, none, none⟩

/-- Update carrying only a (truthy) title. -/
def titleOnlyMeetingUpdates : MeetingUpdates :=
  ⟨some "Kickoff", none, none, none, none, none, none, none⟩

/-- Applying a meeting update as `meetingsDB.update` does: `title`,
`scheduledAt`, `duration` and `status` are written only when truthy (an empty
title or a zero duration is skipped); `description`, `location`, `meetingLink`
and `outcome` are written whenever present (`!== undefined` guards). -/
def applyMeetingUpdates (m : Meeting) (u : MeetingUpdates) : Meeting :=
  { id := m.id
    leadId := m.leadId
    title := match u.title with | some t => if t = "" then m.title else t | none => m.title
    description := match u.description with | some d => some d | none => m.description
    scheduledAt := u.scheduledAt.getD m.scheduledAt
    duration := match u.duration with | some d => if d = 0 then m.duration else d | none => m.duration
    location := match u.location with | some l => some l | none => m.location
    meetingLink := match u.meetingLink with | some l => some l | none => m.meetingLink
    status := u.status.getD m.status
    outcome := match u.outcome with | some o => some o | none => m.outcome }

/-- Test for `meetingsDB.update` pushing at least one SET assignment: `title`,
`scheduledAt`, `duration` and `status` are pushed when truthy (an empty title
or a zero duration is skipped); `description`, `location`, `meetingLink` and
`outcome` whenever present. -/
def meetingUpdatesHasSet (u : MeetingUpdates) : Bool :=
  (match u.title with | some t => !(t == "") | none => false) ||
  u.description.isSome || u.scheduledAt.isSome ||
  (match u.duration with | some d => !(d == 0) | none => false) ||
  u.location.isSome || u.meetingLink.isSome || u.status.isSome || u.outcome.isSome

/-- Handler `update_meeting` of the sqlite server: it runs the UPDATE statement
without any existence check and reports success whether or not the id resolves;
when no field of the partial produces a SET assignment the generated SQL is
malformed and the call surfaces the driver's failure envelope instead. -/
def update_meeting (ms : List Meeting) (id : String) (u : MeetingUpdates) :
    Except String (List Meeting) :=
  if meetingUpdatesHasSet u then
    .ok (ms.map (fun m => if m.id == id then applyMeetingUpdates m u else m))
  else
    .error emptySetSqlError

/-- Handler `delete_meeting` of the sqlite server: unconditional DELETE, always
reports success. -/
def delete_meeting (ms : List Meeting) (id : String) : Except String (List Meeting) :=
  .ok (ms.filter (fun m => !(m.id == id)))

/-- Handler `complete_follow_up` of the sqlite server: it calls
`followUpsDB.update` with the completion flags without any existence check and
always reports success. -/
def complete_follow_up_sql (fs : List FollowUp) (id : String) (now : Nat) :
    Except String (List FollowUp) :=
  .ok (fs.map (fun f =>
    if f.id == id then { f with completed := true, completedAt := some now } else f))

/-! ## Default template seeding -/

/-- Placeholder string for a variable name, used to spell the literal template
texts without brace characters in string literals. -/
def phv (s : String) : String := String.mk (placeholderText s.data)

/-- Default template `template-1` (Introduction Email). -/
def template1 : EmailTemplate :=
  { id := "template-1"
    name := "Introduction Email"
    subject := "Introduction - " ++ phv "company" ++ " & " ++ phv "senderCompany"
    body := "Hi " ++ phv "name" ++ ",\n\nI hope this email finds you well. My name is " ++
      phv "senderName" ++ " from " ++ phv "senderCompany" ++ ".\n\nI came across " ++
      phv "company" ++ " and was impressed by " ++ phv "achievement" ++
      ". I believe there might be a great opportunity for us to collaborate.\n\nWould you be open to a brief 15-minute call next week to explore how we can help " ++
      phv "company" ++ " achieve " ++ phv "goal" ++
      "?\n\nLooking forward to hearing from you.\n\nBest regards,\n" ++
      phv "senderName" ++ "\n" ++ phv "senderTitle" ++ "\n" ++ phv "senderCompany"
    category := .introduction
    «variables» := ["name", "company", "senderName", "senderCompany", "achievement", "goal",
      "senderTitle"] }

/-- Default template `template-2` (Follow-Up After No Response). -/
def template2 : EmailTemplate :=
  { id := "template-2"
    name := "Follow-Up After No Response"
    subject := "Re: " ++ phv "previousSubject"
    body := "Hi " ++ phv "name" ++ ",\n\nI wanted to follow up on my previous email about " ++
      phv "topic" ++ ".\n\nI understand you\u0027re busy, so I\u0027ll keep this brief. " ++
      phv "valueProposition" ++
      "\n\nIf this isn\u0027t a priority right now, I completely understand. Just let me know if you\u0027d like me to check back in a few months.\n\nBest,\n" ++
      phv "senderName"
    category := .follow_up
    «variables» := ["name", "previousSubject", "topic", "valueProposition", "senderName"] }

/-- Default template `template-3` (Meeting Proposal). -/
def template3 : EmailTemplate :=
  { id := "template-3"
    name := "Meeting Proposal"
    subject := "Proposal Discussion - " ++ phv "company"
    body := "Hi " ++ phv "name" ++
      ",\n\nThank you for taking the time to speak with me " ++ phv "meetingDate" ++
      ".\n\nAs discussed, I\u0027ve prepared a tailored proposal for " ++ phv "company" ++
      " that addresses:\n" ++ phv "keyPoints" ++ "\n\nThe estimated value for " ++
      phv "company" ++ " would be approximately " ++ phv "estimatedValue" ++
      ".\n\nWould you be available for a 30-minute call this week to review the details and answer any questions?\n\nBest regards,\n" ++
      phv "senderName"
    category := .proposal
    «variables» := ["name", "company", "meetingDate", "keyPoints", "estimatedValue",
      "senderName"] }

/-- The three default templates seeded at first initialization. -/
def defaultTemplates : List EmailTemplate := [template1, template2, template3]

/-- Seeding step of `initDatabase`: the default templates are inserted only
when the template table holds no row (`SELECT COUNT(*)` is zero); otherwise the
store is left untouched. -/
def initDatabase_seed (ts : List EmailTemplate) : List EmailTemplate :=
  if ts.length = 0 then ts ++ defaultTemplates else ts

/-! ## JSON decoding of list-typed columns

The sqlite backend stores `notes`, `tags` and `variables` as JSON text and
decodes them with `parseJSON`, which calls `JSON.parse` and falls back to an
empty array when parsing throws.  `JSON.parse` is a host builtin; we model it
with an executable recursive-descent parser of the JSON grammar (ECMA-404):
null, booleans, numbers, strings with escapes, arrays and objects. -/

/-- JSON value. -/
inductive Json where
  | null
  | jbool (b : Bool)
  | jnum (q : ℚ)
  | jstr (s : String)
  | jarr (xs : List Json)
  | jobj (fields : List (String × Json))
deriving Repr

/-- Double-quote character (codepoint 34). -/
def quoteChar : Char := Char.ofNat 34

/-- Backslash character (codepoint 92). -/
def backslashChar : Char := Char.ofNat 92

/-- JSON whitespace characters. -/
def isJsonWs (c : Char) : Bool :=
  c = ' ' || c = '\t' || c = '\n' || c = '\r'

/-- Value of a hexadecimal digit. -/
def hexVal (c : Char) : Option Nat :=
  if c.isDigit then some (c.toNat - 48)
  else if 'a' ≤ c ∧ c ≤ 'f' then some (c.toNat - 87)
  else if 'A' ≤ c ∧ c ≤ 'F' then some (c.toNat - 55)
  else none

/-- Parser of the body of a JSON string (after the opening quote), handling the
escape sequences of the grammar and rejecting raw control characters. -/
def parseStringBody : Nat → List Char → List Char → Option (String × List Char)
  | 0, _, _ => none
  | _, [], _ => none
  | fuel + 1, c :: cs, acc =>
    if c = quoteChar then some (String.mk acc.reverse, cs)
    else if c = backslashChar then
      match cs with
      | [] => none
      | e :: cs2 =>
        if e = quoteChar then parseStringBody fuel cs2 (quoteChar :: acc)
        else if e = backslashChar then parseStringBody fuel cs2 (backslashChar :: acc)
        else if e = '/' then parseStringBody fuel cs2 ('/' :: acc)
        else if e = 'n' then parseStringBody fuel cs2 ('\n' :: acc)
        else if e = 't' then parseStringBody fuel cs2 ('\t' :: acc)
        else if e = 'r' then parseStringBody fuel cs2 ('\r' :: acc)
        else if e = 'b' then parseStringBody fuel cs2 (Char.ofNat 8 :: acc)
        else if e = 'f' then parseStringBody fuel cs2 (Char.ofNat 12 :: acc)
        else if e = 'u' then
          match cs2 with
          | h1 :: h2 :: h3 :: h4 :: cs3 =>
            match hexVal h1, hexVal h2, hexVal h3, hexVal h4 with
            | some a, some b, some c3, some d =>
              parseStringBody fuel cs3 (Char.ofNat (((a * 16 + b) * 16 + c3) * 16 + d) :: acc)
            | _, _, _, _ => none
          | _ => none
        else none
    else if c.toNat < 32 then none
    else parseStringBody fuel cs (c :: acc)

/-- Numeric value of a digit run. -/
def digitsToNat (ds : List Char) : Nat :=
  ds.foldl (fun n c => n * 10 + (c.toNat - 48)) 0

/-- Parser of the optional fraction part of a JSON number. -/
def parseFrac (cs : List Char) : Option (List Char × List Char) :=
  match cs with
  | c :: rest =>
    if c = '.' then
      let ds := rest.takeWhile Char.isDigit
      if ds = [] then none else some (ds, rest.dropWhile Char.isDigit)
    else some ([], cs)
  | [] => some ([], cs)

/-- Parser of the optional exponent part of a JSON number. -/
def parseExp (cs : List Char) : Option (Int × List Char) :=
  match cs with
  | c :: rest =>
    if c = 'e' ∨ c = 'E' then
      match rest with
      | s :: r2 =>
        if s = '-' then
          let ds := r2.takeWhile Char.isDigit
          if ds = [] then none
          else some (-(digitsToNat ds : Int), r2.dropWhile Char.isDigit)
        else
          let r3 := if s = '+' then r2 else rest
          let ds := r3.takeWhile Char.isDigit
          if ds = [] then none
          else some ((digitsToNat ds : Int), r3.dropWhile Char.isDigit)
      | [] => none
    else some (0, cs)
  | [] => some (0, cs)

/-- Parser of a JSON number, as an exact rational. -/
def parseNumber (cs : List Char) : Option (ℚ × List Char) :=
  let signSplit : Bool × List Char :=
    match cs with
    | c :: rest => if c = '-' then (true, rest) else (false, cs)
    | [] => (false, cs)
  let neg := signSplit.1
  let cs1 := signSplit.2
  let intDigits := cs1.takeWhile Char.isDigit
  let cs2 := cs1.dropWhile Char.isDigit
  if intDigits = [] then none
  else if 1 < intDigits.length ∧ intDigits.head? = some '0' then none
  else
    match parseFrac cs2 with
    | none => none
    | some (fds, cs3) =>
      match parseExp cs3 with
      | none => none
      | some (e, cs4) =>
        let mantissa : ℚ := (digitsToNat intDigits : ℚ) + (digitsToNat fds : ℚ) / (10 : ℚ) ^ fds.length
        some ((if neg then -mantissa else mantissa) * (10 : ℚ) ^ e, cs4)

mutual

/-- Parser of one JSON value, with fuel bounding the recursion depth (the fuel
supplied by `jsonParse` exceeds what any input can consume). -/
def parseValue : Nat → List Char → Option (Json × List Char)
  | 0, _ => none
  | fuel + 1, cs0 =>
    let cs := cs0.dropWhile isJsonWs
    match cs with
    | [] => none
    | c :: rest =>
      if c = quoteChar then
        match parseStringBody (rest.length + 1) rest [] with
        | some (s, cs2) => some (.jstr s, cs2)
        | none => none
      else if c = '[' then
        let inner := rest.dropWhile isJsonWs
        match inner with
        | c2 :: rest2 =>
          if c2 = ']' then some (.jarr [], rest2)
          else
            match parseArrayRest fuel inner [] with
            | some (xs, r) => some (.jarr xs, r)
            | none => none
        | [] => none
      else if c = lbrace then
        let inner := rest.dropWhile isJsonWs
        match inner with
        | c2 :: rest2 =>
          if c2 = rbrace then some (.jobj [], rest2)
          else
            match parseObjectRest fuel inner [] with
            | some (fields, r) => some (.jobj fields, r)
            | none => none
        | [] => none
      else if "null".data.isPrefixOf cs then some (.null, cs.drop 4)
      else if "true".data.isPrefixOf cs then some (.jbool true, cs.drop 4)
      else if "false".data.isPrefixOf cs then some (.jbool false, cs.drop 5)
      else
        match parseNumber cs with
        | some (q, cs2) => some (.jnum q, cs2)
        | none => none

/-- Parser of the elements of a non-empty JSON array, after the opening
bracket. -/
def parseArrayRest : Nat → List Char → List Json → Option (List Json × List Char)
  | 0, _, _ => none
  | fuel + 1, cs, acc =>
    match parseValue fuel cs with
    | none => none
    | some (v, cs2) =>
      match cs2.dropWhile isJsonWs with
      | c :: rest =>
        if c = ',' then parseArrayRest fuel rest (acc ++ [v])
        else if c = ']' then some (acc ++ [v], rest)
        else none
      | [] => none

/-- Parser of the members of a non-empty JSON object, after the opening
brace. -/
def parseObjectRest : Nat → List Char → List (String × Json) → Option (List (String × Json) × List Char)
  | 0, _, _ => none
  | fuel + 1, cs, acc =>
    match cs.dropWhile isJsonWs with
    | c :: rest =>
      if c = quoteChar then
        match parseStringBody (rest.length + 1) rest [] with
        | none => none
        | some (k, cs2) =>
          match cs2.dropWhile isJsonWs with
          | c2 :: rest2 =>
            if c2 = ':' then
              match parseValue fuel rest2 with
              | none => none
              | some (v, cs3) =>
                match cs3.dropWhile isJsonWs with
                | c3 :: rest3 =>
                  if c3 = ',' then parseObjectRest fuel rest3 (acc ++ [(k, v)])
                  else if c3 = rbrace then some (acc ++ [(k, v)], rest3)
                  else none
                | [] => none
            else none
          | [] => none
      else none
    | [] => none

end

/-- Model of `JSON.parse`: parse one value, allow trailing whitespace only. -/
def jsonParse (s : String) : Option Json :=
  match parseValue (s.data.length + 2) s.data with
  | some (v, rest) => if (rest.dropWhile isJsonWs).isEmpty then some v else none
  | none => none

/-- Embedding of the backend's `parseJSON`: the parsed value when `JSON.parse`
succeeds (whatever its shape), and the empty array when parsing fails. -/
def parseJSON (s : String) : Json :=
  (jsonParse s).getD (.jarr [])

/-- Escaping of one character by `JSON.stringify` (quotes and backslashes; the
theorems below use strings without control characters, which `JSON.stringify`
would escape numerically). -/
def escapeJsonChar (c : Char) : List Char :=
  if c = quoteChar then [backslashChar, quoteChar]
  else if c = backslashChar then [backslashChar, backslashChar]
  else [c]

/-- Serialized form of one string. -/
def quoteJson (s : String) : List Char :=
  quoteChar :: (s.data.flatMap escapeJsonChar) ++ [quoteChar]

/-- Model of `JSON.stringify` on an array of strings, the serialized form under
which the list-typed columns are stored. -/
def stringifyStrings (xs : List String) : String :=
  String.mk ('[' :: List.intercalate [','] (xs.map quoteJson) ++ [']'])

/-! ## Concrete fixtures used by counterexamples and witnesses -/

/-- Concrete lead in stage `new` (so with no closed deal), created at time 1. -/
def adaLead : Lead :=
  { id := "lead-1", name := "Ada", email := "ada@x.com", phone := none
    company := "Analytical Engines", title := none, status := .new, source := "Referral"
    notes := [], createdAt := 1, updatedAt := 1, lastContactedAt := none
    estimatedValue := none, priority := .medium, tags := [] }

/-- Concrete lead created at time 2, inserted after `adaLead`. -/
def graceLead : Lead :=
  { id := "lead-2", name := "Grace", email := "grace@y.com", phone := none
    company := "Hopper Systems", title := none, status := .new, source := "Web"
    notes := [], createdAt := 2, updatedAt := 2, lastContactedAt := none
    estimatedValue := none, priority := .medium, tags := [] }

/-- Conjunctive filter predicate as the specification states it: every filter
that is present must be matched. -/
def leadMatchesFilters (f : LeadFilters) (l : Lead) : Prop :=
  (∀ s, f.status = some s → l.status = s) ∧
  (∀ p, f.priority = some p → l.priority = p) ∧
  (∀ src, f.source = some src → l.source = src)

/-! ## Aggregation lemmas -/

/-- Stage counts of the in-memory pipeline fold, from an arbitrary start. -/
theorem pipelineMem_foldl_count (ls : List Lead) :
    ∀ (acc : Status → StageAgg) (s : Status),
      ((ls.foldl (fun acc l s => if s = l.status then bumpStage (acc s) l else acc s) acc) s).count
        = (acc s).count + (ls.filter (fun l => decide (l.status = s))).length := by
  induction ls with
  | nil => intro acc s; simp
  | cons l ls ih =>
    intro acc s
    simp only [List.foldl_cons, List.filter_cons]
    rw [ih]
    by_cases h : s = l.status
    · have h2 : decide (l.status = s) = true := by simp [h]
      simp only [if_pos h, bumpStage, h2, if_true, List.length_cons]
      omega
    · have h2 : decide (l.status = s) = false := by
        simp only [decide_eq_false_iff_not]
        exact fun hh => h hh.symm
      simp [if_neg h, h2]

/-- Stage counts of the in-memory pipeline equal the per-status filter
counts. -/
theorem pipelineMem_count (leads : List Lead) (s : Status) :
    (pipelineMem leads s).count = (leads.filter (fun l => decide (l.status = s))).length := by
  have h := pipelineMem_foldl_count leads (fun _ => ⟨0, 0, []⟩) s
  simpa [pipelineMem] using h

/-- Bumping a stage adds the lead's estimated value (a missing or zero value
adds zero). -/
theorem bumpStage_value (st : StageAgg) (l : Lead) :
    (bumpStage st l).value = st.value + l.estimatedValue.getD 0 := by
  cases h : l.estimatedValue with
  | none => simp [bumpStage, h]
  | some v => by_cases hv : v = 0 <;> simp [bumpStage, h, hv]

/-- Stage values of the in-memory pipeline fold, from an arbitrary start. -/
theorem pipelineMem_foldl_value (ls : List Lead) :
    ∀ (acc : Status → StageAgg) (s : Status),
      ((ls.foldl (fun acc l s => if s = l.status then bumpStage (acc s) l else acc s) acc) s).value
        = (acc s).value + sumEstimated (ls.filter (fun l => decide (l.status = s))) := by
  induction ls with
  | nil => intro acc s; simp [sumEstimated]
  | cons l ls ih =>
    intro acc s
    simp only [List.foldl_cons, List.filter_cons]
    rw [ih]
    by_cases h : s = l.status
    · have h2 : decide (l.status = s) = true := by simp [h]
      simp only [if_pos h, h2, if_true, bumpStage_value, sumEstimated, List.map_cons,
        List.sum_cons]
      ring
    · have h2 : decide (l.status = s) = false := by
        simp only [decide_eq_false_iff_not]
        exact fun hh => h hh.symm
      simp [if_neg h, h2]

/-- Stage values of the in-memory pipeline equal the per-status filtered
sums. -/
theorem pipelineMem_value (leads : List Lead) (s : Status) :
    (pipelineMem leads s).value = sumEstimated (leads.filter (fun l => decide (l.status = s))) := by
  have h := pipelineMem_foldl_value leads (fun _ => ⟨0, 0, []⟩) s
  simpa [pipelineMem] using h

/-- The per-status filter counts over the seven stages sum to the total lead
count: every lead's status is exactly one of the seven stages. -/
theorem sum_status_counts (leads : List Lead) :
    (stageStatuses.map (fun s => (leads.filter (fun l => decide (l.status = s))).length)).sum
      = leads.length := by
  induction leads with
  | nil => simp [stageStatuses]
  | cons l ls ih =>
    simp only [stageStatuses, List.map_cons, List.map_nil, List.sum_cons, List.sum_nil,
      List.filter_cons] at ih ⊢
    cases hs : l.status <;> simp only [hs] <;> simp <;> omega

/-- Unfolding of the estimated-value sum on a cons cell. -/
theorem sumEstimated_cons (l : Lead) (ls : List Lead) :
    sumEstimated (l :: ls) = l.estimatedValue.getD 0 + sumEstimated ls := by
  simp [sumEstimated]

/-- The per-status filtered value sums over the seven stages add up to the
total estimated-value sum. -/
theorem sum_status_values (leads : List Lead) :
    (stageStatuses.map (fun s => sumEstimated (leads.filter (fun l => decide (l.status = s))))).sum
      = sumEstimated leads := by
  induction leads with
  | nil => simp [stageStatuses, sumEstimated]
  | cons l ls ih =>
    simp only [stageStatuses, List.map_cons, List.map_nil, List.sum_cons, List.sum_nil,
      List.filter_cons] at ih ⊢
    cases hs : l.status <;> simp only [hs] <;> simp [sumEstimated_cons] <;> linarith [ih]

/-! ## Claim theorems -/

/-- C1: the claim states that whenever the store holds no closed_won and no
closed_lost lead, `get_pipeline` reports `winRate = "0%"` (no NaN).  The
in-memory `get_pipeline` guards the division with `leads.length > 0` instead of
`wonDeals + lostDeals > 0`, so a store holding one lead in stage `new` makes it
evaluate `0 / 0` and report `"NaN%"`; the sqlite `getStats` guard (and the
empty store) do produce `"0%"` as claimed. -/
theorem get_pipeline_winRate_nan_bug :
    (get_pipeline_summary_mem [adaLead]).winRate = "NaN%" ∧
    (get_stats_sql [adaLead]).winRate = "0%" ∧
    (get_pipeline_summary_mem []).winRate = "0%" :=
  ⟨rfl, rfl, rfl⟩

/-- C4 counterexample: the in-memory `search_leads` never sorts, it returns the
matching leads in storage (insertion) order; with two leads stored
oldest-first, the result of searching with the empty query is not ordered by
`createdAt` descending, contradicting the claim. -/
theorem search_leads_unsorted_cex :
    ¬ (search_leads "" [adaLead, graceLead]).Pairwise
        (fun a b : Lead => b.createdAt ≤ a.createdAt) := by
  decide

/-- C4 amended: searching returns exactly the leads whose name, company or
email contains the lower-cased query as a case-insensitive substring, or one of
whose tags contains it as a case-insensitive substring, in the storage
(insertion) order of the collection — not re-sorted by `createdAt`. -/
theorem search_leads_filter_spec (q : String) (leads : List Lead) :
    search_leads q leads = leads.filter (fun lead => searchSpecMatch q lead) := rfl

/-- C5 counterexample: a placeholder whose key is bound to the empty string is
not replaced by that value (the claim requires every placeholder whose key is
in the map to be replaced with the key's value); the source callback
`variables[key] || match` keeps the placeholder text instead. -/
theorem interpolate_empty_value_cex :
    interpolateTemplate (phv "a") [("a", "")] = phv "a" ∧ phv "a" ≠ "" := by
  constructor
  · have h := interpolateChars_placeholder [("a", "")] "a".data (by decide) (by decide)
    unfold interpolateTemplate phv
    rw [show (String.mk (placeholderText "a".data)).data = placeholderText "a".data from rfl]
    rw [h]
    rfl
  · decide

/-- C5 amended: interpolation replaces every `placeholder` whose identifier the
variable map binds (case-sensitively) to a non-empty value with that value,
leaves every other placeholder — unknown key or key bound to the empty
string — textually unchanged, and is total (never throws): it equals the
tokenize-then-render function written from that specification. -/
theorem interpolateTemplate_spec (template : String) (vars : List (String × String)) :
    interpolateTemplate template vars = renderTemplate template vars :=
  congrArg String.mk (interpolateChars_eq_render vars template.data)

/-- C6: a lead update never alters `id` or `createdAt`, sets `updatedAt` to the
wall-clock now (hence strictly increases it whenever the clock advanced), and
leaves every field absent from the partial unchanged. -/
theorem update_lead_frame (lead : Lead) (u : LeadUpdates) (now : Nat) :
    (applyLeadUpdates lead u now).id = lead.id ∧
    (applyLeadUpdates lead u now).createdAt = lead.createdAt ∧
    (applyLeadUpdates lead u now).updatedAt = now ∧
    (lead.updatedAt < now → lead.updatedAt < (applyLeadUpdates lead u now).updatedAt) ∧
    (u.status = none → (applyLeadUpdates lead u now).status = lead.status) ∧
    (u.priority = none → (applyLeadUpdates lead u now).priority = lead.priority) ∧
    (u.estimatedValue = none →
      (applyLeadUpdates lead u now).estimatedValue = lead.estimatedValue) ∧
    (u.phone = none → (applyLeadUpdates lead u now).phone = lead.phone) ∧
    (u.title = none → (applyLeadUpdates lead u now).title = lead.title) ∧
    (u.notes = none → (applyLeadUpdates lead u now).notes = lead.notes) ∧
    (u.tags = none → (applyLeadUpdates lead u now).tags = lead.tags) ∧
    (applyLeadUpdates lead u now).name = lead.name ∧
    (applyLeadUpdates lead u now).email = lead.email ∧
    (applyLeadUpdates lead u now).company = lead.company ∧
    (applyLeadUpdates lead u now).source = lead.source ∧
    (applyLeadUpdates lead u now).lastContactedAt = lead.lastContactedAt := by
  refine ⟨rfl, rfl, rfl, ?_, ?_, ?_, ?_, ?_, ?_, ?_, ?_, rfl, rfl, rfl, rfl, rfl⟩
  · intro h
    simpa [applyLeadUpdates] using h
  all_goals (intro h; simp [applyLeadUpdates, h])

/-- C6 witness: the frame conditions evaluated on a concrete lead, an empty
partial update, and a strictly later clock. -/
theorem update_lead_frame_witness :
    (applyLeadUpdates adaLead noLeadUpdates 5).id = adaLead.id ∧
    (applyLeadUpdates adaLead noLeadUpdates 5).createdAt = adaLead.createdAt ∧
    adaLead.updatedAt < (applyLeadUpdates adaLead noLeadUpdates 5).updatedAt ∧
    (applyLeadUpdates adaLead noLeadUpdates 5).status = adaLead.status := by
  obtain ⟨h1, h2, -, h4, h5, -⟩ := update_lead_frame adaLead noLeadUpdates 5
  exact ⟨h1, h2, h4 (by decide), h5 rfl⟩

/-- C7 counterexample: the sqlite server's `update_meeting` handler performs
the UPDATE without an existence check; on a store holding no meeting, an update
carrying a title reports success instead of the claimed `Meeting not found`
envelope. -/
theorem update_meeting_not_found_cex :
    update_meeting [] "m-1" titleOnlyMeetingUpdates = .ok [] ∧
    update_meeting [] "m-1" titleOnlyMeetingUpdates ≠ .error "Meeting not found" :=
  ⟨rfl, fun h => Except.noConfusion h⟩

/-- C7 amended: the id-taking handlers that do check existence (get, update and
delete over leads and templates, and the in-memory `complete_follow_up`) return
the `<Entity> not found` envelope when the id does not resolve, and none of
them raises a protocol-level fault; but the sqlite server's `update_meeting`
(whenever its partial update produces at least one SET assignment),
`delete_meeting` and `complete_follow_up` never check and always report
success, for any store and id; an `update_meeting` whose partial produces no
SET assignment fails with the driver's generic failure envelope, which is
still not the not-found envelope. -/
theorem not_found_envelopes
    (leads : List Lead) (ts : List EmailTemplate) (ms : List Meeting) (fs : List FollowUp)
    (id : String) (lu : LeadUpdates) (tu : TemplateUpdates) (mu : MeetingUpdates) (now : Nat) :
    (leads.find? (fun l => l.id == id) = none →
      get_lead leads id = .error "Lead not found" ∧
      update_lead leads id lu now = .error "Lead not found" ∧
      delete_lead leads id = .error "Lead not found") ∧
    (ts.find? (fun t => t.id == id) = none →
      get_email_template ts id = .error "Template not found" ∧
      update_email_template ts id tu = .error "Template not found" ∧
      delete_email_template ts id = .error "Template not found") ∧
    (fs.find? (fun f => f.id == id) = none →
      complete_follow_up_mem fs id now = .error "Follow-up not found") ∧
    (meetingUpdatesHasSet mu = true →
      ∀ e : String, update_meeting ms id mu ≠ .error e) ∧
    (meetingUpdatesHasSet mu = false →
      ∃ e : String, update_meeting ms id mu = .error e ∧ e ≠ "Meeting not found") ∧
    (∀ e : String, delete_meeting ms id ≠ .error e) ∧
    (∀ e : String, complete_follow_up_sql fs id now ≠ .error e) := by
  refine ⟨?_, ?_, ?_, ?_, ?_, ?_, ?_⟩
  · intro h
    exact ⟨by simp [get_lead, h], by simp [update_lead, h], by simp [delete_lead, h]⟩
  · intro h
    exact ⟨by simp [get_email_template, h], by simp [update_email_template, h],
      by simp [delete_email_template, h]⟩
  · intro h
    simp [complete_follow_up_mem, h]
  · intro h e
    simp [update_meeting, h]
  · intro h
    exact ⟨emptySetSqlError, by simp [update_meeting, h], by decide⟩
  · exact fun e h => Except.noConfusion h
  · exact fun e h => Except.noConfusion h

/-- C7 witness: the envelopes evaluated on empty stores, a fresh id, and both
kinds of meeting update bag. -/
theorem not_found_envelopes_witness :
    get_lead [] "x" = .error "Lead not found" ∧
    update_email_template [] "x" noTemplateUpdates = .error "Template not found" ∧
    complete_follow_up_mem [] "x" 0 = .error "Follow-up not found" ∧
    update_meeting [] "x" titleOnlyMeetingUpdates ≠ .error "Meeting not found" ∧
    (∃ e : String, update_meeting [] "x" noMeetingUpdates = .error e ∧
      e ≠ "Meeting not found") := by
  have h1 := not_found_envelopes [] [] [] [] "x" noLeadUpdates noTemplateUpdates
    titleOnlyMeetingUpdates 0
  have h2 := not_found_envelopes [] [] [] [] "x" noLeadUpdates noTemplateUpdates
    noMeetingUpdates 0
  exact ⟨(h1.1 rfl).1, (h1.2.1 rfl).2.1, h1.2.2.1 rfl,
    h1.2.2.2.1 rfl "Meeting not found", h2.2.2.2.2.1 rfl⟩

/-- C8: seeding inserts the three default templates only into an empty template
store, so initialization is idempotent and running it twice never duplicates a
default template. -/
theorem initDatabase_seed_idempotent :
    (∀ ts : List EmailTemplate, initDatabase_seed (initDatabase_seed ts) = initDatabase_seed ts) ∧
    (initDatabase_seed (initDatabase_seed [])).countP (fun t => t.id == "template-1") = 1 ∧
    (initDatabase_seed []).length = 3 := by
  refine ⟨?_, rfl, rfl⟩
  intro ts
  by_cases h : ts.length = 0
  · have hts : ts = [] := List.length_eq_zero.mp h
    subst hts
    simp [initDatabase_seed, defaultTemplates]
  · simp [initDatabase_seed, h]

/-- C9 counterexample: the string `"true"` is not a well-formed serialized
array, yet the decoder returns the parsed boolean, not the empty sequence:
`JSON.parse` only falls back to the empty array when parsing throws, not when
the parsed value fails to be an array. -/
theorem parseJSON_nonarray_cex :
    parseJSON "true" = Json.jbool true ∧ Json.jbool true ≠ Json.jarr [] :=
  ⟨rfl, fun h => Json.noConfusion h⟩

/-- C9 amended: decoding is total and never throws — a string on which JSON
parsing fails decodes to the empty sequence, a string that parses decodes to
the parsed value even when that value is not an array, and a well-formed
serialized string array decodes to the array. -/
theorem parseJSON_total_spec :
    (∀ s : String, jsonParse s = none → parseJSON s = Json.jarr []) ∧
    (∀ (s : String) (v : Json), jsonParse s = some v → parseJSON s = v) ∧
    parseJSON (stringifyStrings ["hello", "world"]) =
      Json.jarr [Json.jstr "hello", Json.jstr "world"] ∧
    parseJSON "not json" = Json.jarr [] := by
  refine ⟨?_, ?_, rfl, rfl⟩
  · intro s h
    simp [parseJSON, h]
  · intro s v h
    simp [parseJSON, h]

/-- C9 witness: the two parsing outcomes evaluated on concrete inputs. -/
theorem parseJSON_total_spec_witness :
    parseJSON "[" = Json.jarr [] ∧ parseJSON "[true]" = Json.jarr [Json.jbool true] :=
  ⟨parseJSON_total_spec.1 "[" rfl,
    parseJSON_total_spec.2.1 "[true]" (Json.jarr [Json.jbool true]) rfl⟩

/-- C10: a placeholder whose key the variable map binds to the empty string
(the only falsy string value) is left textually unchanged by interpolation —
substitution happens only for truthy values. -/
theorem interpolate_falsy_value_unchanged (key : List Char) (vars : List (String × String))
    (hne : key ≠ []) (hkey : ∀ c ∈ key, isWordChar c = true)
    (hlookup : vars.lookup (String.mk key) = some "") :
    interpolateTemplate (String.mk (placeholderText key)) vars =
      String.mk (placeholderText key) := by
  unfold interpolateTemplate
  rw [show (String.mk (placeholderText key)).data = placeholderText key from rfl]
  rw [interpolateChars_placeholder vars key hne hkey]
  simp [substituteVar, hlookup]

/-- C10 witness: the `goal` placeholder bound to the empty string survives
interpolation unchanged. -/
theorem interpolate_falsy_value_unchanged_witness :
    interpolateTemplate (phv "goal") [("goal", "")] = phv "goal" :=
  interpolate_falsy_value_unchanged "goal".data [("goal", "")] (by decide) (by decide) rfl

/-- C2: for every lead collection, the seven stage counts of `get_pipeline`
sum to the summary's `totalLeads`, and the seven stage values sum to the
summary's `totalPipelineValue` (a missing `estimatedValue` counting as 0) —
both for the in-memory pipeline and for the sqlite pipeline paired with the
`getStats` totals. -/
theorem get_pipeline_sum_invariant (leads : List Lead) :
    ((stageStatuses.map (fun s => (pipelineMem leads s).count)).sum
        = (get_pipeline_summary_mem leads).totalLeads) ∧
    ((stageStatuses.map (fun s => (pipelineMem leads s).value)).sum
        = (get_pipeline_summary_mem leads).totalPipelineValue) ∧
    ((stageStatuses.map (fun s => (pipelineSql leads s).count)).sum
        = (get_stats_sql leads).totalLeads) ∧
    ((stageStatuses.map (fun s => (pipelineSql leads s).value)).sum
        = (get_stats_sql leads).totalPipelineValue) := by
  refine ⟨?_, rfl, ?_, ?_⟩
  · simp only [pipelineMem_count, get_pipeline_summary_mem]
    exact sum_status_counts leads
  · simp only [pipelineSql, get_stats_sql]
    exact sum_status_counts leads
  · simp only [pipelineSql, get_stats_sql]
    exact sum_status_values leads

/-- C3: listing leads under any combination of the status, priority and source
filters returns a permutation of the conjunctively matching leads that is
sorted by priority rank ascending with `createdAt` descending as tie-break, a
lead is in the result exactly when it is stored and matches the filters, and
re-sorting the unfiltered listing by the same key reproduces it (stability of
the sort). -/
theorem list_leads_ordering (leads : List Lead) (f : LeadFilters) :
    (list_leads f leads).Perm (applyLeadFilters f leads) ∧
    (list_leads f leads).Pairwise (fun a b => leadLE a b = true) ∧
    (∀ l : Lead, l ∈ list_leads f leads ↔ l ∈ leads ∧ leadMatchesFilters f l) ∧
    (list_leads noLeadFilters leads).mergeSort leadLE = list_leads noLeadFilters leads := by
  refine ⟨List.mergeSort_perm _ leadLE, List.sorted_mergeSort leadLE_trans leadLE_total _,
    ?_, List.mergeSort_of_sorted (List.sorted_mergeSort leadLE_trans leadLE_total _)⟩
  intro l
  rw [list_leads, List.mem_mergeSort]
  obtain ⟨st, pr, src⟩ := f
  cases st <;> cases pr <;> cases src <;>
    (simp [applyLeadFilters, leadMatchesFilters, List.mem_filter, and_assoc]; try tauto)

end SalesAgent

